import Mathlib

/-
Verification of the Synapse core of rupert_flask (src/rupert.py) against its
natural-language specification.

The embedding is shallow: the JSON settings document is the inductive type
Json (only strings and objects occur in the settings shape the code reads);
the file system and JSON parser are an oracle fs : String -> Option Json
mapping a path to its parsed content (none = missing/unreadable/malformed,
which Python surfaces as an exception and the spec calls ConfigError);
broker interaction is recorded as an explicit trace of Effect values; the
infinite poll loop of listen is run against a finite stream of poll
outcomes (a prefix of the real execution).
-/

namespace Rupert

/-- Json values as the settings code observes them: the settings file read by
rupert.py only ever contains nested objects and strings on the paths the code
dereferences. -/
inductive Json where
  | str : String → Json
  | obj : List (String × Json) → Json

/-- Lookup in a Python-dict-like association list: first binding wins. -/
def lookupA : List (String × Json) → String → Option Json
  | [], _ => none
  | (k, v) :: rest, key => if k = key then some v else lookupA rest key

/-- Python subscript d[k] on a Json value; none models a KeyError (or a
TypeError when the value is not a dict). -/
def jlookup : Json → String → Option Json
  | .str _, _ => none
  | .obj kvs, key => lookupA kvs key

/-- Two-step subscript d[k1][k2], as in settings['kafka']['topics']. -/
def jget2 (j : Json) (k1 k2 : String) : Option Json :=
  (jlookup j k1).bind fun j2 => jlookup j2 k2

/-- Python dict assignment d[key] = v: updates the existing binding in place,
otherwise appends at the end (insertion order). -/
def setAssoc : List (String × Json) → String → Json → List (String × Json)
  | [], key, v => [(key, v)]
  | (k, w) :: rest, key, v =>
    if k = key then (k, v) :: rest else (k, w) :: setAssoc rest key v

/-- Subscript assignment on a Json value; none models the TypeError Python
raises when the target is not a dict. -/
def jset : Json → String → Json → Option Json
  | .obj kvs, key, v => some (.obj (setAssoc kvs key v))
  | .str _, _, _ => none

/-- Python dict union a | b (rupert.py line 31): keys of a in order, with the
value from b when b also binds the key, followed by the bindings of b whose
keys a does not bind. -/
def mergeAssoc (a b : List (String × Json)) : List (String × Json) :=
  a.map (fun p => (p.1, (lookupA b p.1).getD p.2)) ++
    b.filter (fun p => (lookupA a p.1).isNone)

/-- Dict union on Json values; none models the TypeError Python raises when
an operand of | is not a dict. -/
def jmerge : Json → Json → Option Json
  | .obj a, .obj b => some (.obj (mergeAssoc a b))
  | _, _ => none

/-- The first defined of two optional values (used to state the override
semantics of dict union). -/
def firstSome (x y : Option Json) : Option Json :=
  match x with
  | some v => some v
  | none => y

/-- Python exceptions the modelled code can raise. keyError covers the
missing-key lookups (the ConfigError of the spec taxonomy); bufferError is
the producer-queue-full BufferError; kafkaError the broker-side
KafkaException. -/
inductive PyErr where
  | keyError
  | bufferError
  | kafkaError

/-- A broker-delivered consumer message: an optional error indicator (the
result of msg.error()) and a byte payload (the result of msg.value()). -/
structure KMsg where
  error : Option String
  value : List Nat

/-- Externally visible actions of the Synapse, recorded as a trace. -/
inductive Effect where
  | openProducer : Json → Effect
  | produce : Json → List Nat → Effect
  | pollProducer : Nat → Effect
  | flush : Effect
  | openConsumer : Json → Effect
  | subscribe : Json → Effect
  | pollConsumer : Effect
  | logError : String → Effect
  | closeConsumer : Effect
  | exit : Effect
  | printOut : String → Effect
  | sleep : Nat → Effect

/-- The mutable attributes a Synapse instance holds (rupert.py lines 27-33).
The consumer handle itself lives in the effect trace. -/
structure SynapseState where
  settings_file : String
  settings : Json
  consumer_cfg : Json
  close_consumer : Bool

/-- Models Synapse.__load_settings (rupert.py lines 113-123): open the
settings file and json.loads its text, through the file-system oracle. -/
def load_settings (fs : String → Option Json) (path : String) : Option Json :=
  fs path

/-- Models Synapse.__init__ (rupert.py lines 18-33): load the settings, echo
the settings_file path into the mapping, merge kafka.connection with
kafka.consumer (consumer winning), and start with close_consumer false.
Every failure of a step (unreadable file, non-dict value, missing key)
propagates as none. -/
def Synapse.init (fs : String → Option Json) (sf : String) : Option SynapseState :=
  (load_settings fs sf).bind fun s0 =>
    (jset s0 "settings_file" (.str sf)).bind fun s1 =>
      (jget2 s1 "kafka" "connection").bind fun conn =>
        (jget2 s1 "kafka" "consumer").bind fun cons =>
          (jmerge conn cons).map fun cfg =>
            { settings_file := sf, settings := s1, consumer_cfg := cfg,
              close_consumer := false }

/-- Models Synapse.reload (rupert.py lines 78-83): re-run __load_settings,
which replaces self.settings wholesale and touches nothing else. -/
def reload (fs : String → Option Json) (st : SynapseState) : Option SynapseState :=
  (load_settings fs st.settings_file).map fun j => { st with settings := j }

/-- Models Synapse.stop (rupert.py lines 106-108): set the shutdown flag. -/
def stop (st : SynapseState) : SynapseState :=
  { st with close_consumer := true }

/-- The overridable event handler seam: process_event as the loop sees it. -/
def Handler := SynapseState → KMsg → SynapseState × List Effect

/-- Result of running the poll loop of listen against a finite stream of
poll outcomes: the trace, the poll results actually consumed, the messages
handed to the handler, and the final state. -/
structure LoopRes where
  effects : List Effect
  polled : List (Option KMsg)
  forwarded : List KMsg
  final : SynapseState

/-- Models the while-True loop of Synapse.listen (rupert.py lines 49-59):
at the top of each iteration the shutdown flag is checked (close + exit when
set), then the broker is polled; a None poll does nothing, a message with a
non-null error is only logged, and any other message is handed to the
handler. The finite stream polls is the prefix of broker poll outcomes the
run is examined on; an exhausted stream leaves the loop still running. -/
def listenLoop (handle : Handler) : SynapseState → List (Option KMsg) → LoopRes
  | st, [] =>
    if st.close_consumer then
      { effects := [.closeConsumer, .exit], polled := [], forwarded := [], final := st }
    else
      { effects := [], polled := [], forwarded := [], final := st }
  | st, p :: rest =>
    if st.close_consumer then
      { effects := [.closeConsumer, .exit], polled := [], forwarded := [], final := st }
    else
      match p with
      | none =>
        let r := listenLoop handle st rest
        { effects := .pollConsumer :: r.effects, polled := none :: r.polled,
          forwarded := r.forwarded, final := r.final }
      | some msg =>
        match msg.error with
        | some e =>
          let r := listenLoop handle st rest
          { effects := .pollConsumer :: .logError e :: r.effects,
            polled := some msg :: r.polled, forwarded := r.forwarded, final := r.final }
        | none =>
          let st1 := (handle st msg).1
          let r := listenLoop handle st1 rest
          { effects := .pollConsumer :: ((handle st msg).2 ++ r.effects),
            polled := some msg :: r.polled, forwarded := msg :: r.forwarded,
            final := r.final }

/-- Result of a whole listen call: trace, consumed polls, forwarded
messages, final state, and the exception it escaped with (if any). -/
structure ListenRes where
  effects : List Effect
  polled : List (Option KMsg)
  forwarded : List KMsg
  final : SynapseState
  err : Option PyErr

/-- Models Synapse.listen (rupert.py lines 36-59): a Consumer is opened from
the cached consumer_cfg (line 47) before the logical topic is resolved in
the argument of subscribe (line 48); an unresolvable topic therefore raises
KeyError after the consumer was opened and before any poll. Otherwise the
poll loop runs. -/
def listen (handle : Handler) (st : SynapseState) (topic : String)
    (polls : List (Option KMsg)) : ListenRes :=
  match (jget2 st.settings "kafka" "topics").bind (fun t => jlookup t topic) with
  | none =>
    { effects := [.openConsumer st.consumer_cfg], polled := [], forwarded := [],
      final := st, err := some .keyError }
  | some pt =>
    let r := listenLoop handle st polls
    { effects := .openConsumer st.consumer_cfg :: .subscribe pt :: r.effects,
      polled := r.polled, forwarded := r.forwarded, final := r.final, err := none }

/-- The broker's reaction to a produce attempt, abstracting the delivery
semantics of the client library. -/
inductive BrokerResp where
  | ack
  | queueFull
  | brokerErr

/-- Result of a send call: its trace and the exception it escaped with. -/
structure SendRes where
  effects : List Effect
  err : Option PyErr

/-- Models Synapse.send (rupert.py lines 87-103): a fresh Producer is built
from kafka.connection (line 100) before the logical topic is resolved in the
argument of produce (line 101); an unresolvable topic therefore raises
KeyError after the producer was opened and before anything is enqueued.
Otherwise the payload is enqueued, delivery callbacks are awaited for a
bounded 10000 units, and the queue is flushed; a saturated local queue
raises BufferError and other broker failures raise KafkaException. -/
def send (st : SynapseState) (topic : String) (payload : List Nat)
    (resp : BrokerResp) : SendRes :=
  match jget2 st.settings "kafka" "connection" with
  | none => { effects := [], err := some .keyError }
  | some conn =>
    match (jget2 st.settings "kafka" "topics").bind (fun t => jlookup t topic) with
    | none => { effects := [.openProducer conn], err := some .keyError }
    | some pt =>
      match resp with
      | .queueFull =>
        { effects := [.openProducer conn, .produce pt payload], err := some .bufferError }
      | .brokerErr =>
        { effects := [.openProducer conn, .produce pt payload], err := some .kafkaError }
      | .ack =>
        { effects := [.openProducer conn, .produce pt payload, .pollProducer 10000, .flush],
          err := none }

/-- Strict UTF-8 decoding of a byte list, as bytes.decode with the utf-8
codec performs it: rejects truncated sequences, stray continuation bytes,
overlong encodings, surrogates and code points beyond 0x10FFFF. -/
def utf8DecodeList : List Nat → Option (List Char)
  | [] => some []
  | b :: rest =>
    if b < 0x80 then
      (utf8DecodeList rest).map (fun cs => Char.ofNat b :: cs)
    else if 0xC2 ≤ b ∧ b < 0xE0 then
      match rest with
      | b2 :: rest2 =>
        if 0x80 ≤ b2 ∧ b2 < 0xC0 then
          (utf8DecodeList rest2).map
            (fun cs => Char.ofNat ((b - 0xC0) * 0x40 + (b2 - 0x80)) :: cs)
        else none
      | [] => none
    else if 0xE0 ≤ b ∧ b < 0xF0 then
      match rest with
      | b2 :: b3 :: rest3 =>
        if (0x80 ≤ b2 ∧ b2 < 0xC0) ∧ (0x80 ≤ b3 ∧ b3 < 0xC0) then
          let c := (b - 0xE0) * 0x1000 + (b2 - 0x80) * 0x40 + (b3 - 0x80)
          if 0x800 ≤ c ∧ (c < 0xD800 ∨ 0xE000 ≤ c) then
            (utf8DecodeList rest3).map (fun cs => Char.ofNat c :: cs)
          else none
        else none
      | _ => none
    else if 0xF0 ≤ b ∧ b < 0xF5 then
      match rest with
      | b2 :: b3 :: b4 :: rest4 =>
        if (0x80 ≤ b2 ∧ b2 < 0xC0) ∧ (0x80 ≤ b3 ∧ b3 < 0xC0) ∧ (0x80 ≤ b4 ∧ b4 < 0xC0) then
          let c := (b - 0xF0) * 0x40000 + (b2 - 0x80) * 0x1000 +
            (b3 - 0x80) * 0x40 + (b4 - 0x80)
          if 0x10000 ≤ c ∧ c ≤ 0x10FFFF then
            (utf8DecodeList rest4).map (fun cs => Char.ofNat c :: cs)
          else none
        else none
      | _ => none
    else none

/-- Decoding a byte payload to a string, bytes.decode style; none models the
UnicodeDecodeError raised on malformed input. -/
def utf8Decode (bs : List Nat) : Option String :=
  (utf8DecodeList bs).map fun cs => String.mk cs

/-- Models the default Synapse.process_event (rupert.py lines 62-75): decode
the payload as UTF-8 and print it, sleep 10 time units, then call stop. A
payload that does not decode raises UnicodeDecodeError (none) before any
effect. -/
def process_event (st : SynapseState) (msg : KMsg) :
    Option (SynapseState × List Effect) :=
  (utf8Decode msg.value).map fun s =>
    ({ st with close_consumer := true }, [.printOut s, .sleep 10])

/-- Lookup distributes over append: the first list wins. -/
theorem lookupA_append (l1 l2 : List (String × Json)) (key : String) :
    lookupA (l1 ++ l2) key = firstSome (lookupA l1 key) (lookupA l2 key) := by
  induction l1 with
  | nil => simp [lookupA, firstSome]
  | cons p rest ih =>
    obtain ⟨k, v⟩ := p
    by_cases hk : k = key <;> simp [lookupA, hk, ih, firstSome]

/-- Lookup in the key-preserving override map of mergeAssoc. -/
theorem lookupA_mapOverride (a b : List (String × Json)) (key : String) :
    lookupA (a.map (fun p => (p.1, (lookupA b p.1).getD p.2))) key =
      (lookupA a key).map (fun v => (lookupA b key).getD v) := by
  induction a with
  | nil => simp [lookupA]
  | cons p rest ih =>
    obtain ⟨k, v⟩ := p
    by_cases hk : k = key
    · subst hk; simp [lookupA]
    · simp [lookupA, hk, ih]

/-- Lookup in the part of b that mergeAssoc keeps: visible only for keys a
does not bind. -/
theorem lookupA_filterNone (a b : List (String × Json)) (key : String) :
    lookupA (b.filter (fun p => (lookupA a p.1).isNone)) key =
      if (lookupA a key).isNone then lookupA b key else none := by
  induction b with
  | nil => simp [lookupA]
  | cons p rest ih =>
    obtain ⟨k, v⟩ := p
    by_cases hk : k = key
    · subst hk
      cases hcase : (lookupA a k).isNone <;>
        simp [List.filter_cons, hcase, lookupA, ih]
    · cases hcase : (lookupA a k).isNone <;>
        simp [List.filter_cons, hcase, lookupA, hk, ih]

/-- The defining property of Python dict union: lookup in a | b prefers b
and falls back to a. -/
theorem lookupA_merge (a b : List (String × Json)) (key : String) :
    lookupA (mergeAssoc a b) key = firstSome (lookupA b key) (lookupA a key) := by
  unfold mergeAssoc
  rw [lookupA_append, lookupA_mapOverride, lookupA_filterNone]
  cases ha : lookupA a key <;> cases hb : lookupA b key <;>
    simp [firstSome, ha, hb]

/-- Subscript assignment makes the assigned key visible with the assigned
value. -/
theorem jset_lookup (j : Json) (k : String) (v : Json) (j2 : Json)
    (h : jset j k v = some j2) : jlookup j2 k = some v := by
  cases j with
  | str s => simp [jset] at h
  | obj kvs =>
    simp only [jset, Option.some.injEq] at h
    subst h
    simp only [jlookup]
    induction kvs with
    | nil => simp [setAssoc, lookupA]
    | cons p rest ih =>
      obtain ⟨k1, w⟩ := p
      by_cases hk : k1 = k
      · simp [setAssoc, hk, lookupA]
      · simp [setAssoc, hk, lookupA, ih]

/-- Characterisation of a successful construction: the steps __init__ took
and the fields of the resulting state. -/
theorem init_spec (fs : String → Option Json) (p : String) (st : SynapseState)
    (h : Synapse.init fs p = some st) :
    st.close_consumer = false ∧ st.settings_file = p ∧
    ∃ s0 s1, load_settings fs p = some s0 ∧
      jset s0 "settings_file" (.str p) = some s1 ∧ st.settings = s1 ∧
      ∃ conn cons cfg, jget2 s1 "kafka" "connection" = some conn ∧
        jget2 s1 "kafka" "consumer" = some cons ∧
        jmerge conn cons = some cfg ∧ st.consumer_cfg = cfg := by
  simp only [Synapse.init, Option.bind_eq_some, Option.map_eq_some'] at h
  obtain ⟨s0, hs0, s1, hs1, conn, hconn, cons, hcons, cfg, hcfg, hst⟩ := h
  subst hst
  exact ⟨rfl, rfl, s0, s1, hs0, hs1, rfl, conn, cons, cfg, hconn, hcons, hcfg, rfl⟩

/-- Characterisation of a successful reload: the settings are replaced
wholesale with the parsed file content and nothing else changes. -/
theorem reload_spec (fs : String → Option Json) (st st2 : SynapseState)
    (h : reload fs st = some st2) :
    ∃ j, load_settings fs st.settings_file = some j ∧
      st2 = { st with settings := j } := by
  simp only [reload, Option.map_eq_some'] at h
  obtain ⟨j, hj, h2⟩ := h
  exact ⟨j, hj, h2.symm⟩

/-- A loop iteration entered with the shutdown flag set closes the consumer
and exits at once: nothing is polled, nothing is forwarded, the state is
untouched. -/
theorem listenLoop_closed (handle : Handler) (st : SynapseState)
    (polls : List (Option KMsg)) (h : st.close_consumer = true) :
    listenLoop handle st polls =
      { effects := [.closeConsumer, .exit], polled := [], forwarded := [],
        final := st } := by
  cases polls with
  | nil => simp [listenLoop, h]
  | cons p rest => simp [listenLoop, h]

/-- The loop forwards exactly the polled messages whose error indicator is
null, once each, in poll order, whatever the handler does. -/
theorem listenLoop_forward (handle : Handler) (polls : List (Option KMsg))
    (st : SynapseState) :
    (listenLoop handle st polls).forwarded =
      ((listenLoop handle st polls).polled.filterMap id).filter
        (fun m => m.error.isNone) := by
  induction polls generalizing st with
  | nil => by_cases hc : st.close_consumer <;> simp [listenLoop, hc]
  | cons p rest ih =>
    by_cases hc : st.close_consumer
    · simp [listenLoop, hc]
    · cases p with
      | none => simp [listenLoop, hc, ih]
      | some msg =>
        cases he : msg.error with
        | some e => simp [listenLoop, hc, he, ih]
        | none => simp [listenLoop, hc, he, ih]

/-- A neutral handler for exercising the loop: no effects, no state change. -/
def handler0 : Handler := fun st _ => (st, [])

/-- The kafka section of the scenario settings of the spec (section 8). -/
def kafka8 : Json :=
  .obj [("connection", .obj []),
        ("consumer", .obj [("group.id", .str "g")]),
        ("topics", .obj [("in", .str "topic-in"), ("out", .str "topic-out")])]

/-- The scenario settings mapping of the spec (section 8). -/
def settings8 : Json := .obj [("kafka", kafka8)]

/-- A Synapse instance holding the scenario settings. -/
def st8 : SynapseState :=
  { settings_file := "settings.json", settings := settings8,
    consumer_cfg := .obj [("group.id", .str "g")], close_consumer := false }

/-- The bytes of the ASCII payload hello. -/
def helloBytes : List Nat := [104, 101, 108, 108, 111]

/-- A well-formed broker message whose payload decodes to hi. -/
def msgHi : KMsg := { error := none, value := [104, 105] }

/-- A minimal Synapse state for exercising process_event. -/
def st0 : SynapseState :=
  { settings_file := "cfg.json", settings := .obj [], consumer_cfg := .obj [],
    close_consumer := false }

/-- C4: inside listen, a polled message with a non-null broker error is never
handed to the handler (it is only logged), and every polled message with a
null error indicator is handed to the handler exactly once, in the order the
messages were received from the broker — the forwarded list is exactly the
error-free sublist of the polled messages. -/
theorem C4_thm (handle : Handler) (st : SynapseState) (topic : String)
    (polls : List (Option KMsg)) :
    (listen handle st topic polls).forwarded =
      ((listen handle st topic polls).polled.filterMap id).filter
        (fun m => m.error.isNone) := by
  unfold listen
  cases hres : (jget2 st.settings "kafka" "topics").bind (fun t => jlookup t topic) with
  | none => simp
  | some pt => simpa using listenLoop_forward handle polls st

/-- C5: when the shutdown flag is already true as a loop iteration of listen
begins, that iteration closes the consumer handle and terminates the
listening operation before polling, so no message is polled or handed to the
handler and the state is left untouched. -/
theorem C5_thm (handle : Handler) (st : SynapseState)
    (polls : List (Option KMsg)) (h : st.close_consumer = true) :
    listenLoop handle st polls =
      { effects := [.closeConsumer, .exit], polled := [], forwarded := [],
        final := st } :=
  listenLoop_closed handle st polls h

/-- Witness for C5 at a concrete input: after stop, the next loop entry
closes and exits even though a message was available. -/
theorem C5_witness :
    listenLoop handler0 (stop st8) [some msgHi] =
      { effects := [.closeConsumer, .exit], polled := [], forwarded := [],
        final := stop st8 } :=
  C5_thm handler0 (stop st8) [some msgHi] rfl

/-- C8: with the scenario settings, send on logical topic out with payload
hello opens a fresh producer handle from kafka.connection, enqueues the
payload for physical topic topic-out, waits a bounded 10000 units for
delivery callbacks, then flushes; it succeeds when the broker acknowledges,
raises BufferError when the local queue is saturated and KafkaException on
other broker failures. -/
theorem C8_thm :
    (send st8 "out" helloBytes .ack).effects =
      [.openProducer (.obj []), .produce (.str "topic-out") helloBytes,
       .pollProducer 10000, .flush] ∧
    (send st8 "out" helloBytes .ack).err = none ∧
    (send st8 "out" helloBytes .queueFull).err = some .bufferError ∧
    (send st8 "out" helloBytes .brokerErr).err = some .kafkaError :=
  ⟨rfl, rfl, rfl, rfl⟩

/-- C9: for every message whose payload decodes as UTF-8, the default
process_event prints the decoded text, sleeps a fixed 10 time units, and
then calls stop (the resulting state has the shutdown flag set). -/
theorem C9_thm (st : SynapseState) (msg : KMsg) (s : String)
    (h : utf8Decode msg.value = some s) :
    process_event st msg =
      some ({ st with close_consumer := true },
        [.printOut s, .sleep 10]) := by
  simp [process_event, h]

/-- Witness for C9 at a concrete input: the two-byte payload decoding to hi. -/
theorem C9_witness :
    process_event st0 msgHi =
      some ({ st0 with close_consumer := true },
        [.printOut "hi", .sleep 10]) :=
  C9_thm st0 msgHi "hi" rfl

/-- Connection options with a key colliding with the consumer options. -/
def connW : List (String × Json) := [("a", .str "1"), ("x", .str "2")]

/-- Consumer options overriding key a and adding key y. -/
def consW : List (String × Json) := [("a", .str "9"), ("y", .str "3")]

/-- A kafka section with colliding connection and consumer keys. -/
def kafkaW : Json :=
  .obj [("connection", .obj connW), ("consumer", .obj consW), ("topics", .obj [])]

/-- Settings file content for the collision scenario. -/
def contentW : Json := .obj [("kafka", kafkaW)]

/-- File-system oracle holding the collision settings at cfg.json. -/
def fsW : String → Option Json :=
  fun p => if p = "cfg.json" then some contentW else none

/-- The state construction from fsW produces. -/
def stW : SynapseState :=
  { settings_file := "cfg.json",
    settings := .obj [("kafka", kafkaW), ("settings_file", .str "cfg.json")],
    consumer_cfg := .obj (mergeAssoc connW consW), close_consumer := false }

/-- C6: in the merged consumer configuration computed at construction, every
key bound by both kafka.connection and kafka.consumer resolves to the
kafka.consumer value, and a key bound by only one of the two keeps its
value — lookup in the merge is lookup in consumer first, connection second. -/
theorem C6_thm (fs : String → Option Json) (p : String) (st : SynapseState)
    (conn cons : List (String × Json))
    (hinit : Synapse.init fs p = some st)
    (hc : jget2 st.settings "kafka" "connection" = some (.obj conn))
    (hk : jget2 st.settings "kafka" "consumer" = some (.obj cons))
    (key : String) :
    jlookup st.consumer_cfg key =
      firstSome (lookupA cons key) (lookupA conn key) := by
  obtain ⟨-, -, s0, s1, hs0, hs1, hset, conn0, cons0, cfg, hconn0, hcons0,
    hmerge, hcfg⟩ := init_spec fs p st hinit
  rw [hset] at hc hk
  rw [hconn0] at hc
  rw [hcons0] at hk
  injection hc with hc2
  injection hk with hk2
  subst hc2
  subst hk2
  simp only [jmerge, Option.some.injEq] at hmerge
  rw [hcfg, ← hmerge]
  simp only [jlookup]
  exact lookupA_merge conn cons key

/-- Witness for C6 at a concrete input: both maps bind a; the merge resolves
a to the consumer value. -/
theorem C6_witness :
    jlookup stW.consumer_cfg "a" =
      firstSome (lookupA consW "a") (lookupA connW "a") :=
  C6_thm fsW "cfg.json" stW connW consW rfl rfl rfl "a"

/-- Settings content whose topics map sends in to physical topic a. -/
def content7a : Json :=
  .obj [("kafka", .obj [("connection", .obj []), ("consumer", .obj []),
    ("topics", .obj [("in", .str "a")])])]

/-- Settings content whose topics map sends in to physical topic b. -/
def content7b : Json :=
  .obj [("kafka", .obj [("connection", .obj []), ("consumer", .obj []),
    ("topics", .obj [("in", .str "b")])])]

/-- File-system oracle before the edit: cfg.json maps in to a. -/
def fs7a : String → Option Json :=
  fun p => if p = "cfg.json" then some content7a else none

/-- File-system oracle after the edit: cfg.json maps in to b. -/
def fs7b : String → Option Json :=
  fun p => if p = "cfg.json" then some content7b else none

/-- The state construction from fs7a produces. -/
def st7 : SynapseState :=
  { settings_file := "cfg.json",
    settings := .obj [("kafka", .obj [("connection", .obj []), ("consumer", .obj []),
      ("topics", .obj [("in", .str "a")])]), ("settings_file", .str "cfg.json")],
    consumer_cfg := .obj [], close_consumer := false }

/-- The state reload against fs7b produces. -/
def st7r : SynapseState := { st7 with settings := content7b }

/-- C7: after the settings file changes the topics binding of in from a to b
and reload is called, a subsequent listen on in subscribes the consumer to
physical topic b, not a. -/
theorem C7_thm :
    Synapse.init fs7a "cfg.json" = some st7 ∧
    reload fs7b st7 = some st7r ∧
    (listen handler0 st7r "in" []).effects =
      [.openConsumer (.obj []), .subscribe (.str "b")] ∧
    Effect.subscribe (.str "a") ∉ (listen handler0 st7r "in" []).effects := by
  refine ⟨rfl, rfl, rfl, ?_⟩
  intro hmem
  have h2 : (listen handler0 st7r "in" []).effects =
      [.openConsumer (.obj []), .subscribe (.str "b")] := rfl
  rw [h2] at hmem
  simp at hmem

/-- C1 counterexample: with the scenario settings and the unknown logical
topic nope, send does fail with a KeyError (the ConfigError of the spec),
but a producer handle IS opened first — Producer(...) on rupert.py line 100
runs before the topic lookup on line 101 — refuting that no producer handle
is opened. -/
theorem C1_cex :
    (jget2 st8.settings "kafka" "topics").bind (fun t => jlookup t "nope") = none ∧
    (send st8 "nope" [1] .ack).err = some .keyError ∧
    Effect.openProducer (.obj []) ∈ (send st8 "nope" [1] .ack).effects := by
  refine ⟨rfl, rfl, ?_⟩
  have h2 : (send st8 "nope" [1] .ack).effects = [.openProducer (.obj [])] := rfl
  rw [h2]
  exact List.mem_singleton.mpr rfl

/-- C1 amended: send on a logical topic absent from kafka.topics always
fails with a KeyError (ConfigError) and never enqueues a message for the
broker, but when kafka.connection is readable a producer handle is opened
before the failing topic lookup, so the trace is exactly that one opening. -/
theorem C1_thm (st : SynapseState) (topic : String) (payload : List Nat)
    (resp : BrokerResp)
    (h : (jget2 st.settings "kafka" "topics").bind (fun t => jlookup t topic) = none) :
    (send st topic payload resp).err = some .keyError ∧
    (∀ pt pl, Effect.produce pt pl ∉ (send st topic payload resp).effects) ∧
    (∀ conn, jget2 st.settings "kafka" "connection" = some conn →
      (send st topic payload resp).effects = [.openProducer conn]) := by
  unfold send
  cases hc : jget2 st.settings "kafka" "connection" with
  | none =>
    refine ⟨rfl, by simp, ?_⟩
    intro conn hconn
    simp [hc] at hconn
  | some conn =>
    rw [h]
    refine ⟨rfl, by simp, ?_⟩
    intro conn2 hconn
    injection hconn with h2
    rw [← h2]

/-- Witness for the amended C1 at a concrete input: the scenario settings
with the unknown topic nope. -/
theorem C1_witness :
    (send st8 "nope" [1] .ack).err = some .keyError ∧
    Effect.produce (.str "topic-out") [1] ∉ (send st8 "nope" [1] .ack).effects ∧
    (send st8 "nope" [1] .ack).effects = [.openProducer (.obj [])] :=
  ⟨(C1_thm st8 "nope" [1] .ack rfl).1,
   (C1_thm st8 "nope" [1] .ack rfl).2.1 (.str "topic-out") [1],
   (C1_thm st8 "nope" [1] .ack rfl).2.2 (.obj []) rfl⟩

/-- Settings file content without a settings_file key. -/
def content2 : Json := .obj [("kafka", kafka8)]

/-- File-system oracle holding content2 at cfg.json. -/
def fs2 : String → Option Json :=
  fun p => if p = "cfg.json" then some content2 else none

/-- The state construction from fs2 produces: settings_file echoed in. -/
def st2 : SynapseState :=
  { settings_file := "cfg.json",
    settings := .obj [("kafka", kafka8), ("settings_file", .str "cfg.json")],
    consumer_cfg := .obj [("group.id", .str "g")], close_consumer := false }

/-- The state reload against fs2 produces: settings replaced wholesale. -/
def st2r : SynapseState := { st2 with settings := content2 }

/-- C2 counterexample: construction does echo settings_file into the
mapping, but reload replaces the settings wholesale with the file content
and does not re-add it — after reload the key is gone, refuting that the
mapping contains settings_file after every load. -/
theorem C2_cex :
    Synapse.init fs2 "cfg.json" = some st2 ∧
    jlookup st2.settings "settings_file" = some (.str "cfg.json") ∧
    reload fs2 st2 = some st2r ∧
    jlookup st2r.settings "settings_file" = none :=
  ⟨rfl, rfl, rfl, rfl⟩

/-- C2 amended: after construction the in-memory settings mapping binds
settings_file to the construction path; reload instead replaces the mapping
wholesale with the parsed file content and does not re-add settings_file,
so after a reload the key is present only if the file itself contains it. -/
theorem C2_thm :
    (∀ fs p st, Synapse.init fs p = some st →
      jlookup st.settings "settings_file" = some (.str p)) ∧
    (∀ fs st j, load_settings fs st.settings_file = some j →
      reload fs st = some { st with settings := j }) := by
  constructor
  · intro fs p st h
    obtain ⟨-, -, s0, s1, hs0, hs1, hset, -⟩ := init_spec fs p st h
    rw [hset]
    exact jset_lookup s0 "settings_file" (.str p) s1 hs1
  · intro fs st j h
    simp [reload, h]

/-- Witness for the amended C2 at a concrete input. -/
theorem C2_witness :
    jlookup st2.settings "settings_file" = some (.str "cfg.json") ∧
    reload fs2 st2 = some { st2 with settings := content2 } :=
  ⟨C2_thm.1 fs2 "cfg.json" st2 rfl, C2_thm.2 fs2 st2 content2 rfl⟩

/-- Settings content whose connection option a is 1. -/
def contentA : Json :=
  .obj [("kafka", .obj [("connection", .obj [("a", .str "1")]),
    ("consumer", .obj []), ("topics", .obj [("in", .str "t")])])]

/-- Settings content whose connection option a is 2. -/
def contentB : Json :=
  .obj [("kafka", .obj [("connection", .obj [("a", .str "2")]),
    ("consumer", .obj []), ("topics", .obj [("in", .str "t")])])]

/-- File-system oracle before the edit: cfg.json holds contentA. -/
def fsA : String → Option Json :=
  fun p => if p = "cfg.json" then some contentA else none

/-- File-system oracle after the edit: cfg.json holds contentB. -/
def fsB : String → Option Json :=
  fun p => if p = "cfg.json" then some contentB else none

/-- The state construction from fsA produces. -/
def stA : SynapseState :=
  { settings_file := "cfg.json",
    settings := .obj [("kafka", .obj [("connection", .obj [("a", .str "1")]),
      ("consumer", .obj []), ("topics", .obj [("in", .str "t")])]),
      ("settings_file", .str "cfg.json")],
    consumer_cfg := .obj [("a", .str "1")], close_consumer := false }

/-- The state reload against fsB produces. -/
def stB : SynapseState := { stA with settings := contentB }

/-- C3 counterexample: after a reload that changed connection option a from
1 to 2, listen still opens its consumer with the merged configuration cached
at construction (a mapped to 1), even though the merge of the reloaded
kafka.connection and kafka.consumer maps a to 2 — refuting that the consumer
configuration is derived freshly from the reloaded settings. -/
theorem C3_cex :
    Synapse.init fsA "cfg.json" = some stA ∧
    reload fsB stA = some stB ∧
    (listen handler0 stB "in" []).effects =
      [.openConsumer (.obj [("a", .str "1")]), .subscribe (.str "t")] ∧
    ((jget2 stB.settings "kafka" "connection").bind fun c =>
      (jget2 stB.settings "kafka" "consumer").bind fun k => jmerge c k) =
      some (.obj [("a", .str "2")]) ∧
    Json.obj [("a", .str "1")] ≠ Json.obj [("a", .str "2")] := by
  refine ⟨rfl, rfl, rfl, rfl, ?_⟩
  intro hcontra
  injection hcontra with h1
  injection h1 with h2 h3
  injection h2 with h4 h5
  injection h5 with h6
  exact absurd h6 (by decide)

/-- C3 amended: a reload leaves the merged consumer configuration untouched
(it was computed once, at construction), so a subsequent listen opens its
consumer with the construction-time configuration; only the topic
subscription is resolved against the reloaded settings. -/
theorem C3_thm (fs : String → Option Json) (st st2 : SynapseState)
    (h : reload fs st = some st2) :
    st2.consumer_cfg = st.consumer_cfg ∧
    ∀ handle topic polls,
      (listen handle st2 topic polls).effects.head? =
        some (.openConsumer st.consumer_cfg) := by
  obtain ⟨j, hj, hst⟩ := reload_spec fs st st2 h
  subst hst
  refine ⟨rfl, ?_⟩
  intro handle topic polls
  unfold listen
  cases hres : (jget2 ({ st with settings := j } : SynapseState).settings
      "kafka" "topics").bind (fun t => jlookup t topic) with
  | none => rfl
  | some pt => rfl

/-- Witness for the amended C3 at a concrete input. -/
theorem C3_witness :
    stB.consumer_cfg = stA.consumer_cfg ∧
    (listen handler0 stB "in" []).effects.head? =
      some (.openConsumer stA.consumer_cfg) :=
  ⟨(C3_thm fsB stA stB rfl).1, (C3_thm fsB stA stB rfl).2 handler0 "in" []⟩

/-- A kafka section whose topics mapping is empty. -/
def kafkaE : Json :=
  .obj [("connection", .obj []), ("consumer", .obj []), ("topics", .obj [])]

/-- A state holding the empty-topics settings. -/
def stE : SynapseState :=
  { settings_file := "cfg.json", settings := .obj [("kafka", kafkaE)],
    consumer_cfg := .obj [], close_consumer := false }

/-- C10 counterexample: after stop, a listen call on a logical topic absent
from kafka.topics raises KeyError in the subscribe argument (rupert.py line
48) right after opening the consumer — it terminates before the loop, so the
freshly opened consumer is never closed, refuting that every later listen
call closes its freshly opened consumer. -/
theorem C10_cex :
    (stop stE).close_consumer = true ∧
    listen handler0 (stop stE) "in" [] =
      { effects := [.openConsumer (.obj [])], polled := [], forwarded := [],
        final := stop stE, err := some .keyError } ∧
    Effect.closeConsumer ∉ (listen handler0 (stop stE) "in" []).effects := by
  refine ⟨rfl, rfl, ?_⟩
  intro hmem
  have h2 : (listen handler0 (stop stE) "in" []).effects =
      [.openConsumer (.obj [])] := rfl
  rw [h2] at hmem
  simp at hmem

/-- C10 amended: close_consumer is monotone — it is false after
construction, stop sets it true, reload preserves it, the default
process_event only ever sets it true, and send touches no state at all by
construction; consequently, once stop has been called, every later listen
call whose logical topic name resolves in kafka.topics closes its freshly
opened consumer and terminates at the top of its first loop iteration
without polling any message (a listen on an unresolvable topic instead
fails with KeyError after opening the consumer, without polling). -/
theorem C10_thm :
    (∀ fs p st, Synapse.init fs p = some st → st.close_consumer = false) ∧
    (∀ st, (stop st).close_consumer = true) ∧
    (∀ fs st st2, reload fs st = some st2 →
      st2.close_consumer = st.close_consumer) ∧
    (∀ st msg r, process_event st msg = some r →
      r.1.close_consumer = true) ∧
    (∀ (handle : Handler) st topic pt polls, st.close_consumer = true →
      (jget2 st.settings "kafka" "topics").bind (fun t => jlookup t topic) = some pt →
      listen handle st topic polls =
        { effects := [.openConsumer st.consumer_cfg, .subscribe pt,
            .closeConsumer, .exit],
          polled := [], forwarded := [], final := st, err := none }) := by
  refine ⟨?_, ?_, ?_, ?_, ?_⟩
  · intro fs p st h
    exact (init_spec fs p st h).1
  · intro st
    rfl
  · intro fs st st2 h
    obtain ⟨j, hj, hst⟩ := reload_spec fs st st2 h
    subst hst
    rfl
  · intro st msg r h
    simp only [process_event, Option.map_eq_some'] at h
    obtain ⟨s, hs, hr⟩ := h
    rw [← hr]
  · intro handle st topic pt polls hflag htop
    unfold listen
    rw [htop]
    simp [listenLoop_closed handle st polls hflag]

/-- Witness for the amended C10 at concrete inputs, one per conjunct. -/
theorem C10_witness :
    stW.close_consumer = false ∧
    (stop stE).close_consumer = true ∧
    st2r.close_consumer = st2.close_consumer ∧
    (({ st0 with close_consumer := true }, [Effect.printOut "hi", Effect.sleep 10]) :
      SynapseState × List Effect).1.close_consumer = true ∧
    listen handler0 (stop st8) "in" [some msgHi] =
      { effects := [.openConsumer (stop st8).consumer_cfg,
          .subscribe (.str "topic-in"), .closeConsumer, .exit],
        polled := [], forwarded := [], final := stop st8, err := none } :=
  ⟨C10_thm.1 fsW "cfg.json" stW rfl,
   C10_thm.2.1 stE,
   C10_thm.2.2.1 fs2 st2 st2r rfl,
   C10_thm.2.2.2.1 st0 msgHi _ rfl,
   C10_thm.2.2.2.2 handler0 (stop st8) "in" (.str "topic-in") [some msgHi] rfl rfl⟩

end Rupert
